import Mathlib

/-!
Verification development for the mlops-demo Iris serving repository.

The embedding covers the model-resolution and inference-contract subsystem:
- `src/infer_schema.py`: the pydantic schemas (`IrisFeatures`, `InferenceResponse`)
  and the validation they perform on inbound JSON;
- `src/app.py`: the module-level service state (`model`, `model_version`),
  the resolver `load_model_from_mlflow`, the `startup_event` hook, and the
  request handlers (`/`, `/health`, `/contract`, `/predict`);
- `src/train.py`: the training-time feature column order (`load_data`).

Feature values are modelled as rationals; the MLflow collaborator is an
explicit environment record; a loaded model is an opaque pair of functions
(class-index and class-probability) over the assembled feature row, as in the
duck-typed `model.predict` / `model.predict_proba` calls of the source.
-/

namespace MlopsDemo

/-- A raw JSON value appearing as one feature field of the request body:
a JSON number, a JSON string, or anything else (bool, null, array, object). -/
inductive Json where
  | num (q : ℚ)
  | str (s : String)
  | other
deriving DecidableEq

/-- Parse a list of decimal digit characters into a natural number;
fails on an empty list or any non-digit character. -/
def parseDigits (cs : List Char) : Option Nat :=
  match cs with
  | [] => none
  | _ => cs.foldlM (fun acc c => if c.isDigit then some (acc * 10 + (c.toNat - 48)) else none) 0

/-- Parse an unsigned decimal literal (digits, digits.digits, digits., or
.digits) into a pair (scaled integer value, number of fractional digits), so
that the denoted value is `value / 10 ^ fracDigits`. -/
def parseUnsignedDec (cs : List Char) : Option (Nat × Nat) :=
  let intPart := cs.takeWhile (fun c => c ≠ '.')
  match cs.dropWhile (fun c => c ≠ '.') with
  | [] => (parseDigits intPart).map (fun n => (n, 0))
  | _ :: frac =>
    if frac.contains '.' then none
    else
      match intPart, frac with
      | [], [] => none
      | [], f => (parseDigits f).map (fun n => (n, f.length))
      | i, [] => (parseDigits i).map (fun n => (n, 0))
      | i, f =>
        match parseDigits i, parseDigits f with
        | some a, some b => some (a * 10 ^ f.length + b, f.length)
        | _, _ => none

/-- Parse a decimal string with an optional leading sign into a pair
(signed scaled integer, number of fractional digits). -/
def parseDecimalParts (s : String) : Option (Int × Nat) :=
  match s.toList with
  | '-' :: rest => (parseUnsignedDec rest).map (fun p => (-(p.1 : Int), p.2))
  | '+' :: rest => (parseUnsignedDec rest).map (fun p => ((p.1 : Int), p.2))
  | cs => (parseUnsignedDec cs).map (fun p => ((p.1 : Int), p.2))

/-- The rational denoted by a decimal string (optional sign, then an unsigned
decimal literal), modelling the numeric-string grammar pydantic accepts for a
`float` field in lax mode. -/
def parseDecimal (s : String) : Option ℚ :=
  (parseDecimalParts s).map (fun p => (p.1 : ℚ) / 10 ^ p.2)

/-- Lax coercion of a JSON value to a float, as pydantic v2 performs for a
`float` field: JSON numbers pass through, numeric strings are parsed, anything
else is a type error (`none`). -/
def coerceFloat : Json → Option ℚ
  | .num q => some q
  | .str s => parseDecimal s
  | .other => none

/-- Field-level validation failure reasons, as reported in a 422 detail:
the field is absent, the value cannot be coerced to a float, or the coerced
value violates the declared bounds ge=0, le=10. -/
inductive FieldError where
  | missing
  | wrongType
  | outOfRange
deriving DecidableEq

/-- Validation of a single feature field of `IrisFeatures`
(`src/infer_schema.py` lines 15-26): presence first, then float coercion,
then the range constraints `ge=0, le=10` (the `validate_positive` validator
re-checks non-negativity, subsumed by `ge=0`). -/
def validateField (v : Option Json) : Except FieldError ℚ :=
  match v with
  | none => .error .missing
  | some j =>
    match coerceFloat j with
    | none => .error .wrongType
    | some q => if 0 ≤ q ∧ q ≤ 10 then .ok q else .error .outOfRange

/-- The raw `features` object of a request body: each of the four declared
fields is either absent or bound to some JSON value. -/
structure RawFeatures where
  sepal_length : Option Json
  sepal_width : Option Json
  petal_length : Option Json
  petal_width : Option Json
deriving DecidableEq

/-- A validated `IrisFeatures` record: four floats, each in [0, 10]. -/
structure IrisFeatures where
  sepal_length : ℚ
  sepal_width : ℚ
  petal_length : ℚ
  petal_width : ℚ
deriving DecidableEq

/-- The per-field error list of one failed field, tagged with the field name. -/
def errOf (name : String) : Except FieldError ℚ → List (String × FieldError)
  | .error e => [(name, e)]
  | .ok _ => []

/-- Pydantic validation of the whole `IrisFeatures` model: every field is
validated independently, and on any failure the 422 detail carries one entry
per failing field, in declaration order. -/
def validate (r : RawFeatures) : Except (List (String × FieldError)) IrisFeatures :=
  match validateField r.sepal_length, validateField r.sepal_width,
        validateField r.petal_length, validateField r.petal_width with
  | .ok a, .ok b, .ok c, .ok d => .ok ⟨a, b, c, d⟩
  | ra, rb, rc, rd =>
    .error (errOf "sepal_length" ra ++ errOf "sepal_width" rb ++
            errOf "petal_length" rc ++ errOf "petal_width" rd)

/-- An opaque loaded model (`mlflow.sklearn.load_model` result): its
class-index function (`model.predict(X)[0]`, converted with `int(...)`) and
its class-probability function (`model.predict_proba(X)[0]`), both over the
single assembled feature row. -/
structure ModelHandle where
  predict : List ℚ → Int
  predict_proba : List ℚ → List ℚ

/-- The module-level service state of `src/app.py` lines 37-39:
`model = None` and `model_version = None` at import time. -/
structure ServiceState where
  model : Option ModelHandle
  model_version : Option String

/-- The state at process start: both globals are `None`. -/
def initialState : ServiceState := ⟨none, none⟩

/-- `SPECIES_MAP` of `src/app.py` lines 42-46: a fixed dict from class index
to species label, with no entry outside 0, 1, 2. -/
def SPECIES_MAP : Int → Option String := fun i =>
  if i = 0 then some "setosa"
  else if i = 1 then some "versicolor"
  else if i = 2 then some "virginica"
  else none

/-- `SPECIES_MAP.get(prediction, "unknown")`: dict lookup with default. -/
def speciesGet (i : Int) : String := (SPECIES_MAP i).getD "unknown"

/-- Python/NumPy sequence indexing `probabilities[prediction]`: a
non-negative index within bounds reads directly, a negative index within
bounds reads from the end, anything else raises IndexError (`none`). -/
def pyIndex (l : List ℚ) (i : Int) : Option ℚ :=
  if 0 ≤ i then l.get? i.toNat
  else if 0 ≤ (l.length : Int) + i then l.get? ((l.length : Int) + i).toNat
  else none

/-- A validated `InferenceResponse` (`src/infer_schema.py` lines 57-63). -/
structure InferenceResponse where
  prediction : Int
  prediction_label : String
  confidence : ℚ
  model_version : String
deriving DecidableEq

/-- Pydantic construction of `InferenceResponse`: `model_version` must be an
actual string (not `None`) and `confidence` must satisfy ge=0, le=1;
otherwise construction raises inside the handler's try block. -/
def mkInferenceResponse (pred : Int) (lbl : String) (conf : ℚ)
    (ver : Option String) : Option InferenceResponse :=
  match ver with
  | none => none
  | some v => if 0 ≤ conf ∧ conf ≤ 1 then some ⟨pred, lbl, conf, v⟩ else none

/-- Outcome of the `/predict` handler body once validation has passed. -/
inductive PredictOutcome where
  | success (resp : InferenceResponse)
  | unavailable
  | failure
deriving DecidableEq

/-- The single-row feature vector `X` assembled by the handler
(`src/app.py` lines 186-191), in the written field order. -/
def assembleRow (f : IrisFeatures) : List ℚ :=
  [f.sepal_length, f.sepal_width, f.petal_length, f.petal_width]

/-- The `/predict` handler body (`src/app.py` lines 166-219) on a validated
request: 503 when no model is loaded; otherwise assemble the row, take the
predicted index and the probability vector, read the probability at the
predicted index, resolve the label through `SPECIES_MAP` with default
"unknown", and build the response; any exception inside the try block
(IndexError on the probability read, or pydantic rejecting the response)
becomes a 500 (`failure`). -/
def predict (s : ServiceState) (f : IrisFeatures) : PredictOutcome :=
  match s.model with
  | none => .unavailable
  | some m =>
    let X := assembleRow f
    let prediction := m.predict X
    let probabilities := m.predict_proba X
    match pyIndex probabilities prediction with
    | none => .failure
    | some confidence =>
      match mkInferenceResponse prediction (speciesGet prediction) confidence
          s.model_version with
      | none => .failure
      | some resp => .success resp

/-- HTTP result of a POST to `/predict`, validation included. -/
inductive HttpResult where
  | ok200 (resp : InferenceResponse)
  | err422 (detail : List (String × FieldError))
  | err500
  | err503
deriving DecidableEq

/-- The full `/predict` endpoint: FastAPI validates the body against
`InferenceRequest` before the handler runs (422 on failure), then the handler
body maps its outcome to a status code. -/
def predictEndpoint (s : ServiceState) (r : RawFeatures) : HttpResult :=
  match validate r with
  | .error detail => .err422 detail
  | .ok f =>
    match predict s f with
    | .success resp => .ok200 resp
    | .unavailable => .err503
    | .failure => .err500

/-- One MLflow run of the experiment: its identifier and start time. -/
structure RunRecord where
  run_id : String
  start_time : Nat

/-- The relation ordering runs by start time descending, as in the
`order_by=["start_time DESC"]` argument of `mlflow.search_runs`. -/
def laterRun (a b : RunRecord) : Prop := b.start_time ≤ a.start_time

instance : DecidableRel laterRun := fun a b => Nat.decLe b.start_time a.start_time

instance : IsTotal RunRecord laterRun :=
  ⟨fun a b => Nat.le_total b.start_time a.start_time⟩

instance : IsTrans RunRecord laterRun :=
  ⟨fun _ _ _ h1 h2 => Nat.le_trans h2 h1⟩

/-- `mlflow.search_runs(..., order_by=["start_time DESC"])`: the experiment's
runs sorted by start time descending. -/
def searchRunsDesc (runs : List RunRecord) : List RunRecord :=
  runs.insertionSort laterRun

/-- The MLflow collaborator as seen by the resolver: the outcome of loading
the registry alias `models:/iris_classifier/latest` (`none` = the attempt
raised), the experiment lookup `get_experiment_by_name("iris-classification")`
(`none` = no such experiment, otherwise its list of runs), and artifact
loading `runs:/<run_id>/model` by run id (`none` = the load raised). -/
structure MLflowEnv where
  registryModel : Option ModelHandle
  experiment : Option (List RunRecord)
  runModel : String → Option ModelHandle

/-- `load_model_from_mlflow` (`src/app.py` lines 49-98): try the registry
alias first and tag the model "latest"; on failure fall back to the newest
run of the experiment (start time descending, `max_results=1`) and tag the
model with the first 7 characters of the run id (`run_id[:7]`); a missing
experiment, an empty run list, or a failing artifact load re-raises
(`Except.error`). -/
def load_model_from_mlflow (env : MLflowEnv) :
    Except String (ModelHandle × String) :=
  match env.registryModel with
  | some m => .ok (m, "latest")
  | none =>
    match env.experiment with
    | none =>
      .error "Experiment not found. Please run train.py first."
    | some exRuns =>
      match (searchRunsDesc exRuns).take 1 with
      | [] => .error "No runs found in experiment. Please run train.py first."
      | run :: _ =>
        match env.runModel run.run_id with
        | none => .error "Failed to load model from run."
        | some m => .ok (m, run.run_id.take 7)

/-- `startup_event` (`src/app.py` lines 102-118): run the resolver once; on
success it has written both globals, on failure the exception is swallowed
(`pass`) and the state is left as it was. -/
def startup_event (env : MLflowEnv) (s : ServiceState) : ServiceState :=
  match load_model_from_mlflow env with
  | .ok (m, v) => ⟨some m, some v⟩
  | .error _ => s

/-- An inbound HTTP request to one of the four routes. -/
inductive Request where
  | root
  | health
  | contract
  | predictReq (r : RawFeatures)

/-- An HTTP response from one of the four routes. -/
inductive ServiceResponse where
  | rootInfo
  | healthOk (version : Option String)
  | healthUnavailable
  | contractDoc
  | predictResult (h : HttpResult)

/-- One request handled against the current service state. None of the
handlers in `src/app.py` assigns the globals (`global` appears only in
`load_model_from_mlflow`), so each returns the state it was given:
`/` returns static metadata, `/health` returns 503 when `model is None` and
200 with the version otherwise, `/contract` returns the static schemas, and
`/predict` runs validation then the handler body. -/
def handleRequest (s : ServiceState) : Request → ServiceResponse × ServiceState
  | .root => (.rootInfo, s)
  | .health =>
    match s.model with
    | none => (.healthUnavailable, s)
    | some _ => (.healthOk s.model_version, s)
  | .contract => (.contractDoc, s)
  | .predictReq r => (.predictResult (predictEndpoint s r), s)

/-- The state after a sequence of requests has been handled. -/
def runRequests (s : ServiceState) : List Request → ServiceState
  | [] => s
  | req :: reqs => runRequests (handleRequest s req).2 reqs

/-- A reachable service state: the import-time state, or the state after the
one startup hook followed by any sequence of handled requests. -/
def reachable (s : ServiceState) : Prop :=
  s = initialState ∨
  ∃ env reqs, s = runRequests (startup_event env initialState) reqs

/-- The feature field names validated by `IrisFeatures`, in declaration
order (`src/infer_schema.py` lines 15-18). -/
def featureFieldNames : List String :=
  ["sepal_length", "sepal_width", "petal_length", "petal_width"]

/-- The training-time feature column order: `src/train.py` line 29 selects
the dataframe columns in this order to build the training matrix. -/
def trainingFeatureOrder : List String :=
  ["sepal_length", "sepal_width", "petal_length", "petal_width"]

/-- The serving-time field order in which the handler assembles the row `X`
(`src/app.py` lines 186-191). -/
def servingFeatureOrder : List String :=
  ["sepal_length", "sepal_width", "petal_length", "petal_width"]

/-- Projection of a validated feature record by field name. -/
def fieldValue (f : IrisFeatures) : String → Option ℚ := fun n =>
  if n = "sepal_length" then some f.sepal_length
  else if n = "sepal_width" then some f.sepal_width
  else if n = "petal_length" then some f.petal_length
  else if n = "petal_width" then some f.petal_width
  else none

theorem handleRequest_snd (s : ServiceState) (req : Request) :
    (handleRequest s req).2 = s := by
  cases req with
  | root => rfl
  | health => cases hm : s.model <;> simp [handleRequest, hm]
  | contract => rfl
  | predictReq r => rfl

theorem runRequests_eq (s : ServiceState) (reqs : List Request) :
    runRequests s reqs = s := by
  induction reqs generalizing s with
  | nil => rfl
  | cons req reqs ih => rw [runRequests, handleRequest_snd, ih]

theorem speciesGet_mem (i : Int) :
    speciesGet i = "setosa" ∨ speciesGet i = "versicolor" ∨
      speciesGet i = "virginica" ∨ speciesGet i = "unknown" := by
  unfold speciesGet SPECIES_MAP
  by_cases h0 : i = 0 <;> by_cases h1 : i = 1 <;> by_cases h2 : i = 2 <;>
    simp [h0, h1, h2]

theorem speciesGet_unknown_iff (i : Int) :
    speciesGet i = "unknown" ↔ ¬(i = 0 ∨ i = 1 ∨ i = 2) := by
  unfold speciesGet SPECIES_MAP
  by_cases h0 : i = 0 <;> by_cases h1 : i = 1 <;> by_cases h2 : i = 2 <;>
    simp [h0, h1, h2]

theorem predict_success_eq (m : ModelHandle) (v : String) (f : IrisFeatures)
    (q : ℚ)
    (hidx : pyIndex (m.predict_proba (assembleRow f))
      (m.predict (assembleRow f)) = some q)
    (hq0 : 0 ≤ q) (hq1 : q ≤ 1) :
    predict ⟨some m, some v⟩ f =
      .success ⟨m.predict (assembleRow f),
        speciesGet (m.predict (assembleRow f)), q, v⟩ := by
  unfold predict
  simp [hidx, mkInferenceResponse, hq0, hq1]

theorem mkInferenceResponse_inv (pred : Int) (lbl : String) (conf : ℚ)
    (ver : Option String) (resp : InferenceResponse)
    (h : mkInferenceResponse pred lbl conf ver = some resp) :
    resp.prediction = pred ∧ resp.prediction_label = lbl ∧
      resp.confidence = conf ∧ 0 ≤ conf ∧ conf ≤ 1 := by
  unfold mkInferenceResponse at h
  split at h
  · exact absurd h (by simp)
  · split at h
    · rename_i hc
      cases Option.some.inj h
      exact ⟨rfl, rfl, rfl, hc.1, hc.2⟩
    · exact absurd h (by simp)

theorem predict_success_inv (s : ServiceState) (f : IrisFeatures)
    (resp : InferenceResponse) (h : predict s f = .success resp) :
    ∃ m, s.model = some m ∧ resp.prediction = m.predict (assembleRow f) ∧
      resp.prediction_label = speciesGet (m.predict (assembleRow f)) ∧
      0 ≤ resp.confidence ∧ resp.confidence ≤ 1 := by
  unfold predict at h
  dsimp only [] at h
  split at h
  · exact absurd h (by simp)
  · rename_i m hm
    split at h
    · exact absurd h (by simp)
    · rename_i q hq
      split at h
      · exact absurd h (by simp)
      · rename_i r hr
        cases h
        have hi := mkInferenceResponse_inv _ _ _ _ _ hr
        exact ⟨m, hm, hi.1, hi.2.1,
          hi.2.2.1 ▸ hi.2.2.2.1, hi.2.2.1 ▸ hi.2.2.2.2⟩

theorem validate_error_detail (r : RawFeatures)
    (detail : List (String × FieldError)) (h : validate r = .error detail) :
    detail ≠ [] ∧ ∀ p ∈ detail, p.1 ∈ featureFieldNames := by
  unfold validate at h
  rcases h1 : validateField r.sepal_length with e1 | a <;>
    rcases h2 : validateField r.sepal_width with e2 | b <;>
    rcases h3 : validateField r.petal_length with e3 | c <;>
    rcases h4 : validateField r.petal_width with e4 | d <;>
    simp [h1, h2, h3, h4, errOf] at h <;>
    (try subst h) <;> simp [featureFieldNames]

theorem validate_ok_iff (r : RawFeatures) :
    (∃ f, validate r = .ok f) ↔
      ((∃ a, validateField r.sepal_length = .ok a) ∧
       (∃ b, validateField r.sepal_width = .ok b) ∧
       (∃ c, validateField r.petal_length = .ok c) ∧
       (∃ d, validateField r.petal_width = .ok d)) := by
  unfold validate
  rcases h1 : validateField r.sepal_length with e1 | a <;>
    rcases h2 : validateField r.sepal_width with e2 | b <;>
    rcases h3 : validateField r.petal_length with e3 | c <;>
    rcases h4 : validateField r.petal_width with e4 | d <;>
    simp [h1, h2, h3, h4]

theorem validate_nums (a b c d : ℚ)
    (ha0 : 0 ≤ a) (ha1 : a ≤ 10) (hb0 : 0 ≤ b) (hb1 : b ≤ 10)
    (hc0 : 0 ≤ c) (hc1 : c ≤ 10) (hd0 : 0 ≤ d) (hd1 : d ≤ 10) :
    validate ⟨some (.num a), some (.num b), some (.num c), some (.num d)⟩ =
      .ok ⟨a, b, c, d⟩ := by
  unfold validate validateField coerceFloat
  simp [ha0, ha1, hb0, hb1, hc0, hc1, hd0, hd1]

theorem searchRunsDesc_mem (runs : List RunRecord) (x : RunRecord) :
    x ∈ searchRunsDesc runs ↔ x ∈ runs :=
  (List.perm_insertionSort laterRun runs).mem_iff

theorem searchRunsDesc_head_max (runs : List RunRecord) (r : RunRecord)
    (rest : List RunRecord) (h : searchRunsDesc runs = r :: rest) :
    r ∈ runs ∧ ∀ x ∈ runs, x.start_time ≤ r.start_time := by
  have hs : List.Sorted laterRun (searchRunsDesc runs) :=
    List.sorted_insertionSort laterRun runs
  rw [h] at hs
  constructor
  · exact (searchRunsDesc_mem runs r).mp (h ▸ List.mem_cons_self r rest)
  · intro x hx
    have hx2 : x ∈ r :: rest := h ▸ (searchRunsDesc_mem runs x).mpr hx
    rcases List.mem_cons.mp hx2 with hx3 | hx3
    · exact hx3 ▸ le_refl r.start_time
    · exact List.rel_of_sorted_cons hs x hx3

/-- C1: The resolver first attempts the registry alias; on success it stops
with version tag the literal string "latest". On primary failure it falls
back to the most recent run of the experiment (start time descending, at most
one result), and on fallback success the tag is the first 7 characters of
that run's identifier; a missing experiment or an experiment with zero runs
is a terminal failure. -/
theorem C1_resolver_fallback (env : MLflowEnv) :
    (∀ m, env.registryModel = some m →
      load_model_from_mlflow env = .ok (m, "latest")) ∧
    (env.registryModel = none → env.experiment = none →
      ∃ e, load_model_from_mlflow env = .error e) ∧
    (env.registryModel = none → env.experiment = some [] →
      ∃ e, load_model_from_mlflow env = .error e) ∧
    (∀ runs r rest m, env.registryModel = none → env.experiment = some runs →
      searchRunsDesc runs = r :: rest → env.runModel r.run_id = some m →
      load_model_from_mlflow env = .ok (m, r.run_id.take 7) ∧
        r ∈ runs ∧ ∀ x ∈ runs, x.start_time ≤ r.start_time) := by
  refine ⟨?_, ?_, ?_, ?_⟩
  · intro m hm
    simp [load_model_from_mlflow, hm]
  · intro h1 h2
    exact ⟨"Experiment not found. Please run train.py first.",
      by simp [load_model_from_mlflow, h1, h2]⟩
  · intro h1 h2
    exact ⟨"No runs found in experiment. Please run train.py first.",
      by simp [load_model_from_mlflow, h1, h2, searchRunsDesc,
        List.insertionSort]⟩
  · intro runs r rest m h1 h2 hs hrm
    have hmax := searchRunsDesc_head_max runs r rest hs
    refine ⟨?_, hmax.1, hmax.2⟩
    simp [load_model_from_mlflow, h1, h2, hs, hrm]

/-- C1 witness: the four resolver behaviours at concrete environments. -/
theorem C1_resolver_fallback_witness :
    load_model_from_mlflow
        ⟨some ⟨fun _ => 0, fun _ => []⟩, none, fun _ => none⟩ =
      .ok (⟨fun _ => 0, fun _ => []⟩, "latest") ∧
    (∃ e, load_model_from_mlflow ⟨none, none, fun _ => none⟩ = .error e) ∧
    (∃ e, load_model_from_mlflow ⟨none, some [], fun _ => none⟩ = .error e) ∧
    load_model_from_mlflow
        ⟨none, some [⟨"abcdefghij", 5⟩],
          fun _ => some ⟨fun _ => 1, fun _ => []⟩⟩ =
      .ok (⟨fun _ => 1, fun _ => []⟩, "abcdefg") := by
  refine ⟨(C1_resolver_fallback _).1 _ rfl,
          (C1_resolver_fallback _).2.1 rfl rfl,
          (C1_resolver_fallback _).2.2.1 rfl rfl, ?_⟩
  exact ((C1_resolver_fallback _).2.2.2
    [⟨"abcdefghij", 5⟩] ⟨"abcdefghij", 5⟩ [] _ rfl rfl rfl rfl).1

/-- C5: If both resolver strategies fail at startup, the failure is absorbed
(the state is unchanged, i.e. still empty), and every subsequent validated
`/predict` request fails with 503 ModelUnavailable without any inference
computation, until a restart. -/
theorem C5_startup_failure_absorbed (env : MLflowEnv) (msg : String)
    (herr : load_model_from_mlflow env = .error msg) :
    startup_event env initialState = initialState ∧
    initialState.model = none ∧ initialState.model_version = none ∧
    (∀ f, predict (startup_event env initialState) f = .unavailable) ∧
    (∀ r f, validate r = .ok f →
      predictEndpoint (startup_event env initialState) r = .err503) := by
  have hst : startup_event env initialState = initialState := by
    unfold startup_event
    rw [herr]
  refine ⟨hst, rfl, rfl, ?_, ?_⟩
  · intro f
    rw [hst]
    rfl
  · intro r f hv
    rw [hst]
    unfold predictEndpoint
    rw [hv]
    rfl

/-- C5 witness: an environment where both strategies fail, a concrete in-range
request, and the resulting 503. -/
theorem C5_startup_failure_absorbed_witness :
    startup_event ⟨none, none, fun _ => none⟩ initialState = initialState ∧
    predict (startup_event ⟨none, none, fun _ => none⟩ initialState)
      ⟨5, 3, 1, 1⟩ = .unavailable ∧
    predictEndpoint (startup_event ⟨none, none, fun _ => none⟩ initialState)
      ⟨some (.num 5), some (.num 3), some (.num 1), some (.num 1)⟩ =
        .err503 := by
  have h := C5_startup_failure_absorbed ⟨none, none, fun _ => none⟩ _ rfl
  exact ⟨h.1, h.2.2.2.1 ⟨5, 3, 1, 1⟩, h.2.2.2.2 _ ⟨5, 3, 1, 1⟩ rfl⟩

/-- C7: In every reachable state, the model handle and the version tag are
either both present or both absent: they start both absent, model resolution
assigns both or neither, and no request handler writes either. -/
theorem C7_both_or_neither (s : ServiceState) (h : reachable s) :
    s.model.isSome ↔ s.model_version.isSome := by
  rcases h with h | ⟨env, reqs, h⟩
  · subst h
    simp [initialState]
  · rw [runRequests_eq] at h
    subst h
    unfold startup_event
    cases hl : load_model_from_mlflow env with
    | ok p =>
      rcases p with ⟨m, v⟩
      simp
    | error e =>
      simp [initialState]

/-- C7 witness: the invariant at the reachable import-time state. -/
theorem C7_both_or_neither_witness :
    reachable initialState ∧
      (initialState.model.isSome ↔ initialState.model_version.isSome) :=
  ⟨Or.inl rfl, C7_both_or_neither initialState (Or.inl rfl)⟩

/-- C10: Handling any request on any of the four routes returns the state it
was given, and so any sequence of handled requests leaves the service state
unchanged; only the startup-time resolver writes it. -/
theorem C10_requests_leave_state (s : ServiceState) (req : Request)
    (reqs : List Request) :
    (handleRequest s req).2 = s ∧ runRequests s reqs = s :=
  ⟨handleRequest_snd s req, runRequests_eq s reqs⟩

theorem predict_none (s : ServiceState) (f : IrisFeatures)
    (hm : s.model = none) : predict s f = .unavailable := by
  unfold predict
  rw [hm]

theorem predict_cases (s : ServiceState) (m : ModelHandle) (f : IrisFeatures)
    (hm : s.model = some m) :
    (∃ resp, predict s f = .success resp) ∨ predict s f = .failure := by
  unfold predict
  rw [hm]
  dsimp only []
  split
  · exact Or.inr rfl
  · split
    · exact Or.inr rfl
    · exact Or.inl ⟨_, rfl⟩

/-- C2: With a loaded model, the returned confidence is the probability
vector's value at the predicted class index (read with Python indexing) —
not the maximum element of the vector: no argmax assumption is made, so a
degenerate model whose predicted index is not the argmax still gets the
probability at the predicted index. -/
theorem C2_confidence_at_predicted_index (s : ServiceState) (m : ModelHandle)
    (f : IrisFeatures) (q : ℚ) (v : String)
    (hm : s.model = some m) (hv : s.model_version = some v)
    (hidx : pyIndex (m.predict_proba (assembleRow f))
      (m.predict (assembleRow f)) = some q)
    (hq0 : 0 ≤ q) (hq1 : q ≤ 1) :
    predict s f = .success ⟨m.predict (assembleRow f),
      speciesGet (m.predict (assembleRow f)), q, v⟩ := by
  have hs : s = ⟨some m, some v⟩ := by
    cases s
    simp_all
  rw [hs]
  exact predict_success_eq m v f q hidx hq0 hq1

/-- C2 witness: a degenerate model predicting index 0 while the probability
vector's maximum sits at index 1; the returned confidence is the value 1/4
at index 0, not the maximum 3/4. -/
theorem C2_confidence_at_predicted_index_witness :
    predict ⟨some ⟨fun _ => 0, fun _ => [1 / 4, 3 / 4]⟩, some "latest"⟩
        ⟨5, 3, 1, 1⟩ =
      .success ⟨0, speciesGet 0, 1 / 4, "latest"⟩ ∧
    (1 / 4 : ℚ) < 3 / 4 := by
  constructor
  · exact C2_confidence_at_predicted_index
      ⟨some ⟨fun _ => 0, fun _ => [1 / 4, 3 / 4]⟩, some "latest"⟩
      ⟨fun _ => 0, fun _ => [1 / 4, 3 / 4]⟩ ⟨5, 3, 1, 1⟩ (1 / 4) "latest"
      rfl rfl rfl (by norm_num) (by norm_num)
  · norm_num

/-- C6: The prediction label is the predicted index mapped through
SPECIES_MAP with default "unknown"; it is always one of setosa, versicolor,
virginica, unknown; it is "unknown" exactly when the index is outside
{0,1,2}; and an out-of-range index still yields a successful response. -/
theorem C6_label_resolution (s : ServiceState) (m : ModelHandle)
    (f : IrisFeatures) (q : ℚ) (v : String)
    (hm : s.model = some m) (hv : s.model_version = some v)
    (hidx : pyIndex (m.predict_proba (assembleRow f))
      (m.predict (assembleRow f)) = some q)
    (hq0 : 0 ≤ q) (hq1 : q ≤ 1) :
    (∀ resp, predict s f = .success resp →
      resp.prediction_label = speciesGet resp.prediction) ∧
    (speciesGet (m.predict (assembleRow f)) = "setosa" ∨
     speciesGet (m.predict (assembleRow f)) = "versicolor" ∨
     speciesGet (m.predict (assembleRow f)) = "virginica" ∨
     speciesGet (m.predict (assembleRow f)) = "unknown") ∧
    (speciesGet (m.predict (assembleRow f)) = "unknown" ↔
      ¬(m.predict (assembleRow f) = 0 ∨ m.predict (assembleRow f) = 1 ∨
        m.predict (assembleRow f) = 2)) ∧
    predict s f = .success ⟨m.predict (assembleRow f),
      speciesGet (m.predict (assembleRow f)), q, v⟩ := by
  refine ⟨?_, speciesGet_mem _, speciesGet_unknown_iff _, ?_⟩
  · intro resp hresp
    obtain ⟨m2, hm2, hpred, hlbl, _, _⟩ := predict_success_inv s f resp hresp
    rw [hm] at hm2
    cases Option.some.inj hm2
    rw [hpred, hlbl]
  · have hs : s = ⟨some m, some v⟩ := by
      cases s
      simp_all
    rw [hs]
    exact predict_success_eq m v f q hidx hq0 hq1

/-- C6 witness: a model predicting index 5 (outside the species map) still
yields a successful response, labelled "unknown". -/
theorem C6_label_resolution_witness :
    predict ⟨some ⟨fun _ => 5, fun _ => [0, 0, 0, 0, 0, 1]⟩, some "v"⟩
        ⟨5, 3, 1, 1⟩ =
      .success ⟨5, speciesGet 5, 1, "v"⟩ ∧
    speciesGet 5 = "unknown" := by
  refine ⟨(C6_label_resolution
    ⟨some ⟨fun _ => 5, fun _ => [0, 0, 0, 0, 0, 1]⟩, some "v"⟩
    ⟨fun _ => 5, fun _ => [0, 0, 0, 0, 0, 1]⟩ ⟨5, 3, 1, 1⟩ 1 "v" rfl rfl rfl
    (by norm_num) (by norm_num)).2.2.2, rfl⟩

/-- C3: Validation checks presence of all four fields, that each is numeric
(coercible to float), and that each lies in [0,10]; any failure carries a
field-level reason; presence and type are checked before range, so a missing
field is reported as missing and a range error can only arise for a
well-typed value; in particular sepal_length = -1.0 is rejected with a
range-violation reason, not a type-violation reason. -/
theorem C3_validation_rules (r : RawFeatures) (v : Json) :
    ((∃ f, validate r = .ok f) ↔
      ((∃ a, validateField r.sepal_length = .ok a) ∧
       (∃ b, validateField r.sepal_width = .ok b) ∧
       (∃ c, validateField r.petal_length = .ok c) ∧
       (∃ d, validateField r.petal_width = .ok d))) ∧
    (∀ detail, validate r = .error detail →
      detail ≠ [] ∧ ∀ p ∈ detail, p.1 ∈ featureFieldNames) ∧
    (∀ s detail, validate r = .error detail →
      predictEndpoint s r = .err422 detail) ∧
    validateField none = .error .missing ∧
    (validateField (some v) = .error .outOfRange →
      ∃ q, coerceFloat v = some q ∧ ¬(0 ≤ q ∧ q ≤ 10)) ∧
    validate ⟨some (.num (-1)), some (.num 3), some (.num 1), some (.num 1)⟩ =
      .error [("sepal_length", .outOfRange)] := by
  refine ⟨validate_ok_iff r, validate_error_detail r, ?_, rfl, ?_, rfl⟩
  · intro s detail hd
    unfold predictEndpoint
    rw [hd]
  intro h
  unfold validateField at h
  dsimp only [] at h
  split at h
  · exact absurd h (by simp)
  · rename_i q hc
    split at h
    · exact absurd h (by simp)
    · rename_i hq
      exact ⟨q, hc, hq⟩

/-- C3 witness: a request missing sepal_length is reported as missing with a
field-level detail, and -1.0 is a range violation on a well-typed value. -/
theorem C3_validation_rules_witness :
    (([("sepal_length", FieldError.missing)] : List (String × FieldError)) ≠
        [] ∧
      ∀ p ∈ [("sepal_length", FieldError.missing)],
        p.1 ∈ featureFieldNames) ∧
    predictEndpoint initialState
        ⟨none, some (.num 3), some (.num 1), some (.num 1)⟩ =
      .err422 [("sepal_length", FieldError.missing)] ∧
    (∃ q, coerceFloat (.num (-1)) = some q ∧ ¬(0 ≤ q ∧ q ≤ 10)) := by
  have h := C3_validation_rules
    ⟨none, some (.num 3), some (.num 1), some (.num 1)⟩ (.num (-1))
  exact ⟨h.2.1 [("sepal_length", FieldError.missing)] rfl,
    h.2.2.1 initialState [("sepal_length", FieldError.missing)] rfl,
    h.2.2.2.2.1 rfl⟩

/-- C9: A feature field supplied as a string that parses as a decimal number
is coerced to that float and, when in range, accepted; a wrong-type rejection
occurs exactly for values that cannot be coerced to float. -/
theorem C9_numeric_string_coercion (s : String) (q : ℚ) (v : Json)
    (hp : parseDecimal s = some q) :
    (0 ≤ q → q ≤ 10 → validateField (some (.str s)) = .ok q) ∧
    (validateField (some v) = .error .wrongType ↔ coerceFloat v = none) := by
  constructor
  · intro h0 h1
    simp [validateField, coerceFloat, hp, h0, h1]
  · cases hc : coerceFloat v with
    | none => simp [validateField, hc]
    | some q2 =>
      simp only [validateField, hc]
      by_cases hq : 0 ≤ q2 ∧ q2 ≤ 10 <;> simp [hq]

/-- C9 witness: the string "5.1" is coerced to 51/10 and accepted, and a
non-numeric JSON value is the wrong-type case. -/
theorem C9_numeric_string_coercion_witness :
    parseDecimal "5.1" = some (51 / 10) ∧
    validateField (some (.str "5.1")) = .ok (51 / 10) ∧
    (validateField (some .other) = .error .wrongType ↔
      coerceFloat .other = none) := by
  have hp : parseDecimal "5.1" = some (51 / 10) := by
    have h : parseDecimalParts "5.1" = some (51, 1) := by decide
    unfold parseDecimal
    rw [h]
    norm_num
  have h := C9_numeric_string_coercion "5.1" (51 / 10) .other hp
  exact ⟨hp, h.1 (by norm_num) (by norm_num), h.2⟩

/-- C8: The dispatcher assembles a single-row numeric vector in the fixed
field order sepal length, sepal width, petal length, petal width; that order
equals the training-time column order of `src/train.py`; and the handler
consults the model only at that assembled row. -/
theorem C8_feature_row_order (f : IrisFeatures) (m1 m2 : ModelHandle)
    (ver : Option String)
    (hp : m1.predict (assembleRow f) = m2.predict (assembleRow f))
    (hpp : m1.predict_proba (assembleRow f) =
      m2.predict_proba (assembleRow f)) :
    assembleRow f = servingFeatureOrder.filterMap (fieldValue f) ∧
    servingFeatureOrder = trainingFeatureOrder ∧
    predict ⟨some m1, ver⟩ f = predict ⟨some m2, ver⟩ f := by
  refine ⟨?_, rfl, ?_⟩
  · simp [assembleRow, servingFeatureOrder, fieldValue]
  · unfold predict
    dsimp only []
    rw [hp, hpp]

/-- C8 witness: the assembled row and field orders at a concrete record. -/
theorem C8_feature_row_order_witness :
    assembleRow ⟨5, 3, 1, 1⟩ =
      servingFeatureOrder.filterMap (fieldValue ⟨5, 3, 1, 1⟩) ∧
    servingFeatureOrder = trainingFeatureOrder ∧
    predict ⟨some ⟨fun _ => 2, fun _ => [0, 0, 1]⟩, some "v"⟩ ⟨5, 3, 1, 1⟩ =
      predict ⟨some ⟨fun _ => 2, fun _ => [0, 0, 1]⟩, some "v"⟩
        ⟨5, 3, 1, 1⟩ :=
  C8_feature_row_order ⟨5, 3, 1, 1⟩ ⟨fun _ => 2, fun _ => [0, 0, 1]⟩
    ⟨fun _ => 2, fun _ => [0, 0, 1]⟩ (some "v") rfl rfl

/-- C4 counterexample: with a loaded degenerate model whose predicted index
is 3 and an in-range request, `/predict` returns 200 with a prediction
outside {0,1,2} (and the model is loaded, so the 503 arm does not apply):
the dichotomy "200 with prediction in {0,1,2} and confidence in [0,1], or
503 with no model" fails as stated. -/
theorem C4_counterexample :
    (ServiceState.mk (some ⟨fun _ => 3, fun _ => [0, 0, 0, 1]⟩)
        (some "v")).model.isSome = true ∧
    predictEndpoint ⟨some ⟨fun _ => 3, fun _ => [0, 0, 0, 1]⟩, some "v"⟩
        ⟨some (.num 5), some (.num 3), some (.num 1), some (.num 1)⟩ =
      .ok200 ⟨3, "unknown", 1, "v"⟩ ∧
    ¬((3 : Int) = 0 ∨ (3 : Int) = 1 ∨ (3 : Int) = 2) :=
  ⟨rfl, rfl, by decide⟩

/-- C4 amended: for every request whose four feature values are numeric and
in [0,10], `/predict` never returns 422; it returns 503 exactly when no
model is loaded; any 200 response has confidence in [0,1]; and when the
loaded model's predicted index on the assembled row is in {0,1,2} (as for a
well-formed 3-class classifier), a 200 response's prediction is in
{0,1,2}. -/
theorem C4_inrange_request_statuses (s : ServiceState) (a b c d : ℚ)
    (ha0 : 0 ≤ a) (ha1 : a ≤ 10) (hb0 : 0 ≤ b) (hb1 : b ≤ 10)
    (hc0 : 0 ≤ c) (hc1 : c ≤ 10) (hd0 : 0 ≤ d) (hd1 : d ≤ 10) :
    (∀ detail, predictEndpoint s
        ⟨some (.num a), some (.num b), some (.num c), some (.num d)⟩ ≠
      .err422 detail) ∧
    (predictEndpoint s
        ⟨some (.num a), some (.num b), some (.num c), some (.num d)⟩ =
      .err503 ↔ s.model = none) ∧
    (∀ resp, predictEndpoint s
        ⟨some (.num a), some (.num b), some (.num c), some (.num d)⟩ =
      .ok200 resp → 0 ≤ resp.confidence ∧ resp.confidence ≤ 1) ∧
    (∀ m resp, s.model = some m →
      (m.predict (assembleRow ⟨a, b, c, d⟩) = 0 ∨
       m.predict (assembleRow ⟨a, b, c, d⟩) = 1 ∨
       m.predict (assembleRow ⟨a, b, c, d⟩) = 2) →
      predictEndpoint s
          ⟨some (.num a), some (.num b), some (.num c), some (.num d)⟩ =
        .ok200 resp →
      (resp.prediction = 0 ∨ resp.prediction = 1 ∨
        resp.prediction = 2)) := by
  have hval := validate_nums a b c d ha0 ha1 hb0 hb1 hc0 hc1 hd0 hd1
  cases hm : s.model with
  | none =>
    have hend : predictEndpoint s
        ⟨some (.num a), some (.num b), some (.num c), some (.num d)⟩ =
        .err503 := by
      unfold predictEndpoint
      rw [hval]
      dsimp only []
      rw [predict_none s ⟨a, b, c, d⟩ hm]
    refine ⟨?_, ?_, ?_, ?_⟩
    · intro detail
      rw [hend]
      simp
    · rw [hend]
      simp [hm]
    · intro resp hr
      rw [hend] at hr
      exact absurd hr (by simp)
    · intro m2 resp hsm _ _
      exact absurd hsm (by simp)
  | some m =>
    rcases predict_cases s m ⟨a, b, c, d⟩ hm with ⟨r, hp⟩ | hp
    · have hend : predictEndpoint s
          ⟨some (.num a), some (.num b), some (.num c), some (.num d)⟩ =
          .ok200 r := by
        unfold predictEndpoint
        rw [hval]
        dsimp only []
        rw [hp]
      refine ⟨?_, ?_, ?_, ?_⟩
      · intro detail
        rw [hend]
        simp
      · rw [hend]
        simp [hm]
      · intro resp hr
        rw [hend] at hr
        obtain ⟨m3, _, _, _, hcf0, hcf1⟩ :=
          predict_success_inv s ⟨a, b, c, d⟩ r hp
        cases HttpResult.ok200.inj hr
        exact ⟨hcf0, hcf1⟩
      · intro m2 resp hsm hpreds hr
        rw [hend] at hr
        cases HttpResult.ok200.inj hr
        obtain ⟨m3, hm3, hpred, _, _, _⟩ :=
          predict_success_inv s ⟨a, b, c, d⟩ r hp
        have hm23 : m3 = m2 := by
          rw [hm] at hm3
          rw [← Option.some.inj hm3]
          exact Option.some.inj hsm
        rw [hpred, hm23]
        exact hpreds
    · have hend : predictEndpoint s
          ⟨some (.num a), some (.num b), some (.num c), some (.num d)⟩ =
          .err500 := by
        unfold predictEndpoint
        rw [hval]
        dsimp only []
        rw [hp]
      refine ⟨?_, ?_, ?_, ?_⟩
      · intro detail
        rw [hend]
        simp
      · rw [hend]
        simp [hm]
      · intro resp hr
        rw [hend] at hr
        exact absurd hr (by simp)
      · intro m2 resp _ _ hr
        rw [hend] at hr
        exact absurd hr (by simp)

/-- C4 witness for the amended claim: a well-formed model at a concrete
in-range request. -/
theorem C4_inrange_request_statuses_witness :
    predictEndpoint ⟨some ⟨fun _ => 0, fun _ => [1, 0, 0]⟩, some "v"⟩
        ⟨some (.num 5), some (.num 3), some (.num 1), some (.num 1)⟩ ≠
      .err422 [] ∧
    (predictEndpoint ⟨some ⟨fun _ => 0, fun _ => [1, 0, 0]⟩, some "v"⟩
        ⟨some (.num 5), some (.num 3), some (.num 1), some (.num 1)⟩ =
      .err503 ↔
      (ServiceState.mk (some ⟨fun _ => 0, fun _ => [1, 0, 0]⟩)
        (some "v")).model = none) := by
  have h := C4_inrange_request_statuses
    ⟨some ⟨fun _ => 0, fun _ => [1, 0, 0]⟩, some "v"⟩ 5 3 1 1
    (by norm_num) (by norm_num) (by norm_num) (by norm_num)
    (by norm_num) (by norm_num) (by norm_num) (by norm_num)
  exact ⟨h.1 [], h.2.1⟩

end MlopsDemo
